import Mathlib

/-!
Verification of the typed reference model and serialization protocol of
`pdf_render` (`src/object.rs`), as a shallow embedding in Lean 4.

The Rust serialization interface is
`fn serialize<W: io::Write>(&self, out: &mut W) -> io::Result<()>`,
generic over the byte sink `W`.  We embed it twice, as two instantiations
of that generic function:

* a pure instantiation (`serialize`, `serializeStr`, ...) where the sink is
  an in-memory string that never fails, so the only observable effects are
  the concatenated output and divergence (`panic!` / `unimplemented!`),
  modelled by `Option String` with `none` for divergence;

* a fallible instantiation (`serializeW`, ...) where the sink is a test
  double that fails at a prescribed set of write-call indices, so that the
  propagation (or silent loss) of sink errors is observable.

Machine integers (`u64` ids, `u16` generation numbers, `i32`) are modelled
by `Nat`/`Int`; their `Display` rendering is plain decimal in both Rust and
Lean.  The external `Primitive`/`Dictionary` model (crate module
`primitive`, not part of the analysed source) is modelled from the spec:
an ordered union of object variants, with the dictionary an
insertion-ordered list of string-keyed entries.
-/

namespace PdfRender

/-- An untyped indirect reference, `PlainRef` from `src/object.rs` lines
54-58: an object number (`ObjNr = u64`) and a generation number
(`GenNr = u16`), both modelled by `Nat`. -/
structure PlainRef where
  id : Nat
  gen : Nat
deriving DecidableEq

/-- Modelled from the spec: the error kinds of the crate's `err` module
(not part of the analysed source).  The source itself names
`ErrorKind::FollowReference` (line 30); the spec additionally names a
type-mismatch kind and a write-failure kind. -/
inductive PdfError where
  | followReference
  | typeMismatch
  | writeFailure
deriving DecidableEq

/-- Modelled from the spec: the external `Primitive` union of the crate's
`primitive` module, with exactly the variants matched by
`impl Object for Primitive` (`src/object.rs` lines 200-215).  The
dictionary payload is an insertion-ordered list of string-keyed entries
(spec: "an ordered string-keyed Dictionary", iteration in insertion
order).  The `f32` payload of `Number` is modelled abstractly by its
rendered decimal text; the payloads of `String` and `Stream` are dropped
because their serialization is `unimplemented!()` in the source. -/
inductive Primitive where
  | null
  | integer (x : Int)
  | number (text : String)
  | boolean (b : Bool)
  | string
  | stream
  | name (s : String)
  | array (xs : List Primitive)
  | dictionary (entries : List (String × Primitive))
  | reference (r : PlainRef)

/-- The `Resolve` capability (`src/object.rs` lines 16-18): one operation
mapping a `PlainRef` to a `Result<Primitive>`.  Any function of this type
satisfies it (lines 19-23). -/
def Resolve := PlainRef → Except PdfError Primitive

/-- The always-failing resolver `NoResolve` (`src/object.rs` lines 27-33):
its `resolve` ignores the reference and returns
`Err(ErrorKind::FollowReference.into())`. -/
def NoResolve : Resolve := fun _ => Except.error PdfError.followReference

/-- A typed reference, `Ref<T>` from `src/object.rs` lines 68-72: a
`PlainRef` with a phantom type tag.  The `PhantomData` marker has no
runtime content and is omitted. -/
structure Ref (T : Type) where
  inner : PlainRef

/-- `Ref::new` (`src/object.rs` lines 74-79). -/
def Ref.new {T : Type} (inner : PlainRef) : Ref T := ⟨inner⟩

/-- `Ref::from_id` (`src/object.rs` lines 80-85): wraps
`PlainRef { id: id, gen: 0 }`. -/
def Ref.from_id {T : Type} (id : Nat) : Ref T := ⟨⟨id, 0⟩⟩

/-- `Ref::get_inner` (`src/object.rs` lines 86-88). -/
def Ref.get_inner {T : Type} (r : Ref T) : PlainRef := r.inner

/-- `MaybeRef<T>` (`src/object.rs` lines 112-116): either the owned value
or a typed reference to it. -/
inductive MaybeRef (T : Type) where
  | owned (t : T)
  | reference (r : Ref T)

/-- `impl FromPrimitive for MaybeRef<T>` (`src/object.rs` lines 125-136).
The trait method `T::from_primitive` is passed explicitly as `fromPrim`.
A `Reference` primitive is wrapped as `Reference(Ref::new(r))` without
touching `fromPrim` or the resolver; any other primitive is handed to
`fromPrim` together with the same resolver, and its result is wrapped in
`Owned` (with `?` propagating its error). -/
def MaybeRef.from_primitive {T : Type}
    (fromPrim : Primitive → Resolve → Except PdfError T)
    (p : Primitive) (r : Resolve) : Except PdfError (MaybeRef T) :=
  match p with
  | Primitive.reference pr => Except.ok (MaybeRef.reference (Ref.new pr))
  | p => Except.map MaybeRef.owned (fromPrim p r)

/-- `impl Object for PlainRef` (`src/object.rs` lines 59-63):
`write!(out, "{} {} R", self.id, self.gen)`, pure instantiation.  `{}` on
`u64`/`u16` is plain decimal, i.e. `Nat.repr`. -/
def serializePlainRef (r : PlainRef) : String :=
  Nat.repr r.id ++ " " ++ Nat.repr r.gen ++ " R"

/-- `impl Object for Ref<T>` (`src/object.rs` lines 90-94): delegates to
the inner `PlainRef`. -/
def serializeRef {T : Type} (r : Ref T) : String :=
  serializePlainRef r.inner

/-- The character loop of `impl Object for str` (`src/object.rs` lines
170-182), pure instantiation, over the string's character list.  For each
character: `\`, `(`, `)` first emit one `\`; a character above `'~'` is
`panic!("only ASCII")`, modelled as `none`; every non-panicking character
is then emitted itself. -/
def serializeStrChars : List Char → Option String
  | [] => some ""
  | c :: rest =>
    if c = '\\' ∨ c = '(' ∨ c = ')' then
      Option.map (fun r => "\\" ++ String.singleton c ++ r) (serializeStrChars rest)
    else if '~' < c then
      none
    else
      Option.map (fun r => String.singleton c ++ r) (serializeStrChars rest)

/-- `impl Object for str` (`src/object.rs` lines 170-182), iterating
`self.chars()`. -/
def serializeStr (s : String) : Option String :=
  serializeStrChars s.data

mutual

/-- `impl Object for Primitive` (`src/object.rs` lines 200-215), pure
instantiation.  `Null` writes `null`; `Integer`, `Number`, `Boolean`
write their `Display` text; `String` and `Stream` are `unimplemented!()`
(divergence, `none`); `Dictionary`, `Array`, `Reference` and `Name`
delegate to the corresponding `Object` impls.  Note that `Name` delegates
to `str::serialize`, which writes the bare name text (no leading `/`). -/
def serialize : Primitive → Option String
  | Primitive.null => some "null"
  | Primitive.integer x => some (toString x)
  | Primitive.number t => some t
  | Primitive.boolean b => some (if b then "true" else "false")
  | Primitive.string => none
  | Primitive.stream => none
  | Primitive.name s => serializeStr s
  | Primitive.array xs =>
    Option.map (fun body => "[" ++ body ++ "]") (serializeList xs)
  | Primitive.dictionary entries =>
    Option.map (fun body => "<<" ++ body ++ ">>") (serializeDict entries)
  | Primitive.reference r => some (serializePlainRef r)

/-- The entry loop of `impl Object for Dictionary` (`src/object.rs` lines
160-168), pure instantiation: for each entry in stored order,
`write!(out, "/{} ", key)` (the key via `Display`, no escaping) and then
the value's serialization; a diverging value aborts the whole output. -/
def serializeDict : List (String × Primitive) → Option String
  | [] => some ""
  | (k, v) :: rest =>
    match serialize v with
    | none => none
    | some sv =>
      match serializeDict rest with
      | none => none
      | some srest => some ("/" ++ k ++ " " ++ sv ++ srest)

/-- Modelled from the spec: `write_list` of the crate's `types` module
(not part of the analysed source), used by the `Vec<T>`/`[T]` impls
(`src/object.rs` lines 189-198).  Spec: "`[` + serialized elements
separated by a single space + `]`"; this is the element/separator body,
the brackets are added at the `Array` dispatch. -/
def serializeList : List Primitive → Option String
  | [] => some ""
  | [x] => serialize x
  | x :: rest =>
    match serialize x, serializeList rest with
    | some sx, some srest => some (sx ++ " " ++ srest)
    | _, _ => none

end

/-- A fallible byte sink: the text successfully written so far, the number
of `write!` calls made so far, and the set of call indices at which the
sink reports an I/O error (a test-double instantiation of `W: io::Write`).
A failing call writes nothing; every call advances the call counter. -/
structure Sink where
  written : String
  calls : Nat
  failAt : List Nat
deriving DecidableEq

/-- One `write!` call against the sink: fails exactly when the current
call index is in `failAt`. -/
def Sink.write (s : Sink) (chunk : String) : Bool × Sink :=
  if s.calls ∈ s.failAt then
    (false, { s with calls := s.calls + 1 })
  else
    (true, { s with written := s.written ++ chunk, calls := s.calls + 1 })

/-- Outcome of running a `serialize` call against a fallible sink: normal
return `Ok(())`, an `io::Result` error, or divergence
(`panic!` / `unimplemented!`). -/
inductive SerResult where
  | ok
  | ioError
  | diverge
deriving DecidableEq

/-- A single `write!(...)?` (or tail-position `write!`) against the sink:
the `Bool` of `Sink.write` as a `SerResult`. -/
def writeOut (s : Sink) (chunk : String) : SerResult × Sink :=
  match s.write chunk with
  | (true, s2) => (SerResult.ok, s2)
  | (false, s2) => (SerResult.ioError, s2)

/-- `impl Object for str` (`src/object.rs` lines 170-182), fallible-sink
instantiation: the escape backslash and the character are separate
`write!` calls, each with `?`; the panic on a character above `'~'`
happens before that character's write. -/
def serializeStrW : List Char → Sink → SerResult × Sink
  | [], s => (SerResult.ok, s)
  | c :: rest, s =>
    if c = '\\' ∨ c = '(' ∨ c = ')' then
      match s.write "\\" with
      | (true, s1) =>
        match s1.write (String.singleton c) with
        | (true, s2) => serializeStrW rest s2
        | (false, s2) => (SerResult.ioError, s2)
      | (false, s1) => (SerResult.ioError, s1)
    else if '~' < c then
      (SerResult.diverge, s)
    else
      match s.write (String.singleton c) with
      | (true, s2) => serializeStrW rest s2
      | (false, s2) => (SerResult.ioError, s2)

mutual

/-- `impl Object for Primitive` (`src/object.rs` lines 200-215),
fallible-sink instantiation.  Each leaf variant is one `write!` call;
`Dictionary` and `Array` follow their impls' call sequences. -/
def serializeW : Primitive → Sink → SerResult × Sink
  | Primitive.null, s => writeOut s "null"
  | Primitive.integer x, s => writeOut s (toString x)
  | Primitive.number t, s => writeOut s t
  | Primitive.boolean b, s => writeOut s (if b then "true" else "false")
  | Primitive.string, s => (SerResult.diverge, s)
  | Primitive.stream, s => (SerResult.diverge, s)
  | Primitive.name str, s => serializeStrW str.data s
  | Primitive.array xs, s =>
    match writeOut s "[" with
    | (SerResult.ok, s1) =>
      match serializeListW xs s1 with
      | (SerResult.ok, s2) => writeOut s2 "]"
      | r => r
    | r => r
  | Primitive.dictionary entries, s =>
    match writeOut s "<<" with
    | (SerResult.ok, s1) =>
      match serializeDictW entries s1 with
      | (SerResult.ok, s2) => writeOut s2 ">>"
      | r => r
    | r => r
  | Primitive.reference r, s =>
    writeOut s (Nat.repr r.id ++ " " ++ Nat.repr r.gen ++ " R")

/-- The entry loop of `impl Object for Dictionary` (`src/object.rs` lines
160-168), fallible-sink instantiation.  Faithful to the source, the
result of the key write `write!(out, "/{} ", key)` on line 164 is
DISCARDED (the statement carries no `?`), while the value's
serialization on line 165 carries `?`. -/
def serializeDictW : List (String × Primitive) → Sink → SerResult × Sink
  | [], s => (SerResult.ok, s)
  | (k, v) :: rest, s =>
    match s.write ("/" ++ k ++ " ") with
    | (_, s1) =>
      match serializeW v s1 with
      | (SerResult.ok, s2) => serializeDictW rest s2
      | r => r

/-- Modelled from the spec: `write_list` (crate module `types`, not part
of the analysed source), fallible-sink instantiation; per the spec every
sink error is propagated. -/
def serializeListW : List Primitive → Sink → SerResult × Sink
  | [], s => (SerResult.ok, s)
  | [x], s => serializeW x s
  | x :: rest, s =>
    match serializeW x s with
    | (SerResult.ok, s1) =>
      match s1.write " " with
      | (true, s2) => serializeListW rest s2
      | (false, s2) => (SerResult.ioError, s2)
    | r => r

end

/-- The escaping of one literal-string character as the spec states it:
`\`, `(`, `)` are preceded by exactly one `\`; every other character
passes through unchanged. -/
def escapeChar (c : Char) : String :=
  if c = '\\' ∨ c = '(' ∨ c = ')' then "\\" ++ String.singleton c
  else String.singleton c

/-- Joining a nonempty list of strings peels off the head. -/
theorem joinCons (s : String) (l : List String) :
    String.join (s :: l) = s ++ String.join l := by
  apply String.ext
  simp [String.join_eq, String.data_append]

/-- C3: converting a `Reference` primitive to `MaybeRef<T>` yields
`Reference(Ref::new(r))` for every choice of the type's conversion
function and of the resolver, so in particular it never invokes `T`'s
conversion and never consults the supplied `Resolve` capability. -/
theorem C3_reference_wrapped_without_resolving :
    ∀ (T : Type) (fromPrim : Primitive → Resolve → Except PdfError T)
      (R : Resolve) (pr : PlainRef),
      MaybeRef.from_primitive fromPrim (Primitive.reference pr) R =
        Except.ok (MaybeRef.reference (Ref.new pr)) := by
  intro T fromPrim R pr
  rfl

/-- C4: converting a non-`Reference` primitive `p` to `MaybeRef<T>`
delegates to `T`'s conversion on the same primitive with the identical
resolver: a successful conversion `t` is returned as `Owned t`, and a
failing conversion's error is returned unchanged. -/
theorem C4_owned_delegates_to_conversion
    (T : Type) (fromPrim : Primitive → Resolve → Except PdfError T)
    (R : Resolve) (p : Primitive)
    (h : ∀ pr, p ≠ Primitive.reference pr) :
    MaybeRef.from_primitive fromPrim p R =
        Except.map MaybeRef.owned (fromPrim p R)
    ∧ (∀ t, fromPrim p R = Except.ok t →
        MaybeRef.from_primitive fromPrim p R = Except.ok (MaybeRef.owned t))
    ∧ (∀ e, fromPrim p R = Except.error e →
        MaybeRef.from_primitive fromPrim p R = Except.error e) := by
  have hmain : MaybeRef.from_primitive fromPrim p R =
      Except.map MaybeRef.owned (fromPrim p R) := by
    cases p <;> first | rfl | exact absurd rfl (h _)
  refine ⟨hmain, ?_, ?_⟩
  · intro t ht
    rw [hmain, ht]
    rfl
  · intro e he
    rw [hmain, he]
    rfl

/-- C4 witness: converting the non-reference primitive `Null` with a
conversion that succeeds with `0` yields `Owned 0`. -/
theorem C4_owned_delegates_to_conversion_witness :
    MaybeRef.from_primitive (fun _ _ => Except.ok (0 : Nat))
        Primitive.null NoResolve = Except.ok (MaybeRef.owned 0) :=
  (C4_owned_delegates_to_conversion Nat (fun _ _ => Except.ok 0) NoResolve
    Primitive.null (fun _ h => nomatch h)).2.1 0 rfl

/-- C5: a `PlainRef` with id `I` and generation `G` serializes to exactly
the text `I G R` (both numbers in decimal), a `Ref<T>` serializes exactly
as its inner `PlainRef`, the `Reference` primitive dispatches to the same
text, and the example `PlainRef { id: 12, gen: 0 }` yields `12 0 R`. -/
theorem C5_plainref_serializes_id_gen_R :
    (∀ r : PlainRef,
      serializePlainRef r = Nat.repr r.id ++ " " ++ Nat.repr r.gen ++ " R")
    ∧ (∀ (T : Type) (t : Ref T), serializeRef t = serializePlainRef t.get_inner)
    ∧ (∀ r : PlainRef, serialize (Primitive.reference r) = some (serializePlainRef r))
    ∧ serializePlainRef ⟨12, 0⟩ = "12 0 R" := by
  refine ⟨fun r => rfl, fun T t => rfl, fun r => by simp [serialize], by decide⟩

/-- C9: the always-failing resolver returns the `FollowReference` error
for every `PlainRef`, whatever its id and generation, and never returns a
`Primitive`. -/
theorem C9_noresolve_always_fails :
    (∀ r : PlainRef, NoResolve r = Except.error PdfError.followReference)
    ∧ (∀ (r : PlainRef) (p : Primitive), NoResolve r ≠ Except.ok p) :=
  ⟨fun _ => rfl, fun _ _ h => nomatch h⟩

/-- C10: `Ref::<T>::from_id(id)` wraps `PlainRef { id, gen: 0 }`, so its
serialization is the text `id 0 R`. -/
theorem C10_from_id_defaults_generation_zero :
    ∀ (T : Type) (id : Nat),
      (Ref.from_id id : Ref T).get_inner = PlainRef.mk id 0
      ∧ serializeRef (Ref.from_id id : Ref T) = Nat.repr id ++ " 0 R" := by
  intro T id
  constructor
  · rfl
  · show Nat.repr id ++ " " ++ Nat.repr 0 ++ " R" = Nat.repr id ++ " 0 R"
    simp only [String.append_assoc]
    congr 1

/-- C1: serializing a dictionary whose entries all serialize without
diverging writes exactly `<<`, then for each entry in stored order the
text `/key ` followed by that value's own serialization, then `>>`. -/
theorem C1_dictionary_serialization_shape
    (entries : List (String × Primitive))
    (h : ∀ kv ∈ entries, serialize kv.2 ≠ none) :
    serialize (Primitive.dictionary entries) =
      some ("<<" ++
        String.join (entries.map
          (fun kv => "/" ++ kv.1 ++ " " ++ (serialize kv.2).getD "")) ++
        ">>") := by
  have hd : ∀ es : List (String × Primitive),
      (∀ kv ∈ es, serialize kv.2 ≠ none) →
      serializeDict es =
        some (String.join (es.map
          (fun kv => "/" ++ kv.1 ++ " " ++ (serialize kv.2).getD ""))) := by
    intro es
    induction es with
    | nil =>
      intro _
      simp [serializeDict, String.join]
    | cons kv rest ih =>
      intro hes
      obtain ⟨k, v⟩ := kv
      have hv : serialize v ≠ none := hes (k, v) (List.mem_cons_self _ _)
      obtain ⟨sv, hsv⟩ := Option.ne_none_iff_exists'.mp hv
      have hrest := ih (fun kv hkv => hes kv (List.mem_cons_of_mem _ hkv))
      simp [serializeDict, hsv, hrest, joinCons]
  simp [serialize, hd entries h]

/-- C1 witness: the one-entry dictionary `{A: Null}` serializes to
`<</A null>>`. -/
theorem C1_dictionary_serialization_shape_witness :
    serialize (Primitive.dictionary [("A", Primitive.null)]) =
      some "<</A null>>" := by
  have h := C1_dictionary_serialization_shape [("A", Primitive.null)]
    (by simp [serialize])
  simpa [serialize, String.join] using h

/-- C2: serializing a string all of whose characters are printable ASCII
emits each character unchanged except that `\`, `(` and `)` are each
preceded by exactly one `\`. -/
theorem C2_printable_ascii_escaping
    (s : String)
    (h : ∀ c ∈ s.data, ' ' ≤ c ∧ c ≤ '~') :
    serializeStr s = some (String.join (s.data.map escapeChar)) := by
  have aux : ∀ cs : List Char, (∀ c ∈ cs, ' ' ≤ c ∧ c ≤ '~') →
      serializeStrChars cs = some (String.join (cs.map escapeChar)) := by
    intro cs
    induction cs with
    | nil =>
      intro _
      simp [serializeStrChars, String.join]
    | cons c rest ih =>
      intro hc
      have h1 := hc c (List.mem_cons_self _ _)
      have h2 := ih (fun d hd => hc d (List.mem_cons_of_mem _ hd))
      have hle : ¬ ('~' < c) := not_lt.mpr h1.2
      by_cases hesc : c = '\\' ∨ c = '(' ∨ c = ')'
      · simp [serializeStrChars, hesc, h2, joinCons, escapeChar]
      · simp [serializeStrChars, hesc, hle, h2, joinCons, escapeChar]
  exact aux s.data h

/-- C2 witness: the spec's example, `A(B)\C` serializes to `A\(B\)\\C`. -/
theorem C2_printable_ascii_escaping_witness :
    serializeStr "A(B)\\C" = some "A\\(B\\)\\\\C" := by
  have h := C2_printable_ascii_escaping "A(B)\\C" (by decide)
  rw [h]
  decide

/-- C7 counterexample: the claim says every string containing a character
outside printable ASCII diverges when serialized, but the control
character `\n` (below the printable range) serializes successfully, the
character passing through verbatim. -/
theorem C7_control_char_does_not_panic :
    ('\n' < ' ' ∧ '\n' ∈ ("\n" : String).data)
    ∧ serializeStr "\n" = some "\n" := by
  decide

/-- C7 as amended: serializing a literal string diverges (the source's
`panic!("only ASCII")`) exactly when the string contains a character with
code point above `'~'`; characters at or below `'~'`, including ASCII
control characters, never trigger the panic. -/
theorem C7_panic_iff_above_tilde (s : String) :
    serializeStr s = none ↔ ∃ c ∈ s.data, '~' < c := by
  have aux : ∀ cs : List Char,
      serializeStrChars cs = none ↔ ∃ c ∈ cs, '~' < c := by
    intro cs
    induction cs with
    | nil => simp [serializeStrChars]
    | cons c rest ih =>
      by_cases hesc : c = '\\' ∨ c = '(' ∨ c = ')'
      · have hcle : ¬ ('~' < c) := by
          rcases hesc with h | h | h <;> subst h <;> decide
        simp [serializeStrChars, hesc, hcle, ih]
      · by_cases hgt : '~' < c
        · simp [serializeStrChars, hesc, hgt]
        · simp [serializeStrChars, hesc, hgt, ih]
  exact aux s.data

/-- C6 counterexample: the spec's example output is wrong for the code:
serializing `{Type: Name("Catalog"), Pages: Reference(3,0)}` does not
produce `<</Type /Catalog /Pages 3 0 R>>` (the `Name` impl writes no
leading `/`, and no space is written between a value and the next key). -/
theorem C6_claimed_example_output_wrong :
    serialize (Primitive.dictionary
      [("Type", Primitive.name "Catalog"),
       ("Pages", Primitive.reference ⟨3, 0⟩)]) ≠
      some "<</Type /Catalog /Pages 3 0 R>>" := by
  have h : serialize (Primitive.dictionary
      [("Type", Primitive.name "Catalog"),
       ("Pages", Primitive.reference ⟨3, 0⟩)]) =
      some "<</Type Catalog/Pages 3 0 R>>" := by
    simp [serialize, serializeDict, serializeStr, serializeStrChars,
      serializePlainRef, Nat.repr]
    rfl
  rw [h]
  decide

/-- C6 as amended: serializing the two-entry dictionary
`{Type: Name("Catalog"), Pages: Reference(3,0)}` produces exactly
`<</Type Catalog/Pages 3 0 R>>`: the `Name` value is rendered by the
string serializer without a leading slash, and no separator is written
between the first entry's value and the second entry's key. -/
theorem C6_dictionary_example_actual_output :
    serialize (Primitive.dictionary
      [("Type", Primitive.name "Catalog"),
       ("Pages", Primitive.reference ⟨3, 0⟩)]) =
      some "<</Type Catalog/Pages 3 0 R>>" := by
  simp [serialize, serializeDict, serializeStr, serializeStrChars,
    serializePlainRef, Nat.repr]
  rfl

/-- C8: evaluation of the code at the failing input.  Serializing the
dictionary `{K: Null}` into a sink that fails exactly at its second write
call — the key write `write!(out, "/K ")`, whose `Result` line 164 of
`src/object.rs` discards — returns `Ok(())` and the output `<<null>>`:
the sink's I/O error is silently swallowed instead of being returned, as
the claim (and the spec's error-handling section) requires. -/
theorem C8_key_write_error_silently_dropped :
    serializeW (Primitive.dictionary [("K", Primitive.null)])
      { written := "", calls := 0, failAt := [1] } =
      (SerResult.ok, { written := "<<null>>", calls := 4, failAt := [1] }) := by
  simp [serializeW, serializeDictW, writeOut, Sink.write]

end PdfRender
